import Mathlib

/-!
# Verification of the Synthea claims join-and-aggregate pipeline

A shallow embedding of `join_claims_data.py`.  A pandas `DataFrame` is
modelled as a list of column names together with a list of rows, each row a
list of cells; a cell is `Option String` (`none` models NaN/missing, which
is also how `pandas.read_csv` represents a blank field).  The joins, the
prefix renaming of the dimension tables, the clinical aggregation, the
column drops and the final `_x`/`_y` collision cleanup are translated
operation by operation from the source.
-/

structure DataFrame where
  cols : List String
  rows : List (List (Option String))
deriving Repr, DecidableEq

/-- `df.empty` in pandas: true when either axis has length zero. -/
def DataFrame.isEmptyDF (df : DataFrame) : Bool :=
  df.rows.isEmpty || df.cols.isEmpty

/-- Index of the first column with the given name (pandas label lookup). -/
def colIdx (cs : List String) (c : String) : Option Nat :=
  match cs with
  | [] => none
  | d :: ds => if d = c then some 0 else (colIdx ds c).map (· + 1)

/-- The cell of row `r` in the column labelled `c` (missing column gives NaN). -/
def getCell (cs : List String) (r : List (Option String)) (c : String) : Option String :=
  match colIdx cs c with
  | some i => r.getD i none
  | none => none

/-- The new name of column `c` under a rename mapping (pandas
`df.rename(columns=dict)` leaves labels not in the dict unchanged). -/
def renFun (m : List (String × String)) (c : String) : String :=
  ((m.find? (fun p => p.1 == c)).map Prod.snd).getD c

/-- `df.rename(columns=dict)`: relabel columns, rows untouched. -/
def renameWith (m : List (String × String)) (df : DataFrame) : DataFrame :=
  ⟨df.cols.map (renFun m), df.rows⟩

/-- The rename dictionary the script builds for each dimension table:
every column except the key `Id` is mapped to `prefix + name`. -/
def prefixDict (pre : String) (cs : List String) : List (String × String) :=
  cs.map (fun c => (c, if c = "Id" then c else pre ++ c))

/-- The Namespacer: `table.rename(columns={col: f'{pre}{col}' if col != 'Id'
else col for col in table.columns})`. -/
def namespacer (pre : String) (df : DataFrame) : DataFrame :=
  renameWith (prefixDict pre df.cols) df

/-- The tuple of key cells of a row for the given `on` column labels. -/
def keyOf (cs : List String) (ks : List String) (r : List (Option String)) :
    List (Option String) :=
  ks.map (getCell cs r)

/-- The rows of the right table whose `rOn` key equals `k`
(pandas `merge` matches NaN keys with NaN keys). -/
def matchRows (R : DataFrame) (rOn : List String) (k : List (Option String)) :
    List (List (Option String)) :=
  R.rows.filter (fun rr => keyOf R.cols rOn rr == k)

/-- The block of output rows a single left row contributes to a left merge:
one row per matching right row, or one all-NaN-padded row when none match. -/
def mergeRow (L R : DataFrame) (lOn rOn : List String)
    (lr : List (Option String)) : List (List (Option String)) :=
  let ms := matchRows R rOn (keyOf L.cols lOn lr)
  if ms.isEmpty then [lr ++ List.replicate R.cols.length none]
  else ms.map (fun rr => lr ++ rr)

/-- Suffixing of one side's column labels: a label also present on the other
side receives this side's suffix (pandas `merge` suffixes). -/
def suffixCols (own other : List String) (suf : String) : List String :=
  own.map (fun c => if other.contains c then c ++ suf else c)

/-- `pd.merge(L, R, left_on, right_on, how='left', suffixes=(lsuf, rsuf))`. -/
def merge (L R : DataFrame) (lOn rOn : List String) (lsuf rsuf : String) :
    DataFrame :=
  ⟨suffixCols L.cols R.cols lsuf ++ suffixCols R.cols L.cols rsuf,
   L.rows.flatMap (mergeRow L R lOn rOn)⟩

/-- Keep the entries of a list at the positions where the mask is `true`. -/
def maskList {α : Type} : List Bool → List α → List α
  | b :: bs, a :: as => if b then a :: maskList bs as else maskList bs as
  | _, _ => []

/-- `df.drop(columns=names, errors='ignore')`: remove every column whose
label is in `names`, and the corresponding cells of every row. -/
def dropCols (df : DataFrame) (names : List String) : DataFrame :=
  let keep := df.cols.map (fun c => !names.contains c)
  ⟨maskList keep df.cols, df.rows.map (maskList keep)⟩

/-- `str.endswith` over the character data. -/
def endsWithStr (s suf : String) : Bool :=
  suf.data.isSuffixOf s.data

/-- A label produced by pandas' default merge suffixes. -/
def conflictMarker (c : String) : Bool :=
  endsWithStr c "_x" || endsWithStr c "_y"

/-- Step 11 of the script: collect the columns whose label ends in `_x` or
`_y` and drop them. -/
def dropConflictCols (df : DataFrame) : DataFrame :=
  dropCols df (df.cols.filter conflictMarker)

/-! ## Clinical aggregation -/

/-- Sequence a list of optional cells: `some` of the values when all are
present, `none` when any is missing. -/
def allSome {α : Type} : List (Option α) → Option (List α)
  | [] => some []
  | none :: _ => none
  | some a :: rest => (allSome rest).map (a :: ·)

/-- The group key of a fact row: `none` when any grouping cell is NaN
(pandas `groupby` drops NaN-keyed rows). -/
def rowKey (df : DataFrame) (gcols : List String) (r : List (Option String)) :
    Option (List String) :=
  allSome (gcols.map (getCell df.cols r))

/-- Lexicographic comparison of two strings by code point, Python's
string ordering. -/
def charsLt : List Char → List Char → Bool
  | [], _ :: _ => true
  | _, [] => false
  | a :: as, b :: bs => if a < b then true else if a = b then charsLt as bs else false

/-- Boolean lexicographic order on string tuples, the order in which
`groupby(sort=True)` lists its groups. -/
def listLe : List String → List String → Bool
  | [], _ => true
  | _ :: _, [] => false
  | a :: as, b :: bs =>
    if charsLt a.data b.data then true else if a = b then listLe as bs else false

/-- Insert a key into a sorted list of keys. -/
def insertKey (k : List String) : List (List String) → List (List String)
  | [] => [k]
  | x :: xs => if listLe k x then k :: x :: xs else x :: insertKey k xs

/-- Sort a list of keys lexicographically (insertion sort). -/
def sortKeys : List (List String) → List (List String)
  | [] => []
  | x :: xs => insertKey x (sortKeys xs)

/-- The distinct group keys of a fact table, in the sorted order
`groupby` produces. -/
def aggKeys (df : DataFrame) (gcols : List String) : List (List String) :=
  sortKeys ((df.rows.filterMap (rowKey df gcols)).dedup)

/-- `'|'.join(x.dropna().astype(str))`. -/
def joinBar (xs : List String) : String :=
  String.intercalate "|" xs

/-- The aggregate row of one group: the key cells followed by the
`|`-joined non-NaN codes and descriptions, in original row order. -/
def aggRow (df : DataFrame) (gcols : List String) (code_col desc_col : String)
    (k : List String) : List (Option String) :=
  let grp := df.rows.filter (fun r => gcols.map (getCell df.cols r) == k.map some)
  k.map some ++
    [some (joinBar (grp.filterMap (fun r => getCell df.cols r code_col))),
     some (joinBar (grp.filterMap (fun r => getCell df.cols r desc_col)))]

/-- `aggregate_clinical_data` from the script: an empty input yields an
empty frame with the `_LIST` column names; otherwise group by `gcols`,
`|`-join the dropna'd codes and descriptions of each group, and rename the
two aggregated columns to `<col>_LIST`. -/
def aggregate_clinical_data (df : DataFrame) (gcols : List String)
    (code_col desc_col : String) : DataFrame :=
  if df.isEmptyDF then
    ⟨gcols ++ [code_col ++ "_LIST", desc_col ++ "_LIST"], []⟩
  else
    renameWith [(code_col, code_col ++ "_LIST"), (desc_col, desc_col ++ "_LIST")]
      ⟨gcols ++ [code_col, desc_col],
       (aggKeys df gcols).map (aggRow df gcols code_col desc_col)⟩

/-- Step 3 of `main` for one clinical fact kind: aggregate a non-empty
table and rename the `_LIST` columns to the kind-specific names, or build
the empty frame with the final column names directly. -/
def prepareAgg (df : DataFrame) (codesName descsName : String) : DataFrame :=
  if !df.isEmptyDF then
    renameWith [("CODE_LIST", codesName), ("DESCRIPTION_LIST", descsName)]
      (aggregate_clinical_data df ["PATIENT", "ENCOUNTER"] "CODE" "DESCRIPTION")
  else
    ⟨["PATIENT", "ENCOUNTER", codesName, descsName], []⟩

/-! ## The join pipeline (`main`, steps 2–11) -/

/-- The claims rename of step 4. -/
def claimsDict : List (String × String) :=
  [("Id", "CLAIM_ID"), ("PATIENTID", "CLAIM_PATIENTID"),
   ("PROVIDERID", "CLAIM_PROVIDERID"), ("DEPARTMENTID", "CLAIM_DEPARTMENTID"),
   ("APPOINTMENTID", "CLAIM_APPOINTMENTID"),
   ("SUPERVISINGPROVIDERID", "CLAIM_SUPERVISINGPROVIDERID")]

/-- The encounters rename of step 5. -/
def encountersDict : List (String × String) :=
  [("Id", "ENCOUNTER_ID"), ("START", "ENCOUNTER_START"),
   ("STOP", "ENCOUNTER_STOP"), ("CODE", "ENCOUNTER_CODE"),
   ("DESCRIPTION", "ENCOUNTER_DESCRIPTION"),
   ("REASONCODE", "ENCOUNTER_REASONCODE"),
   ("REASONDESCRIPTION", "ENCOUNTER_REASONDESCRIPTION")]

/-- Steps 2–11 of `main`: namespace the dimensions, aggregate the clinical
facts, run the nine left joins in order, drop the helper key columns, and
drop the `_x`/`_y` collision columns. -/
def runJoin (claims claims_transactions encounters patients providers
    organizations payers procedures conditions medications : DataFrame) :
    DataFrame :=
  let patients_renamed := namespacer "PATIENT_" patients
  let providers_renamed := namespacer "PROVIDER_" providers
  let organizations_renamed := namespacer "ORG_" organizations
  let payers_renamed := namespacer "PAYER_" payers
  let procedures_agg := prepareAgg procedures "PROCEDURE_CODES" "PROCEDURE_DESCRIPTIONS"
  let conditions_agg := prepareAgg conditions "CONDITION_CODES" "CONDITION_DESCRIPTIONS"
  let medications_agg := prepareAgg medications "MEDICATION_CODES" "MEDICATION_DESCRIPTIONS"
  let claims_renamed := renameWith claimsDict claims
  let claims_with_trans :=
    merge claims_transactions claims_renamed ["CLAIMID"] ["CLAIM_ID"] "_x" "_y"
  let encounters_renamed := renameWith encountersDict encounters
  let j1 := merge claims_with_trans encounters_renamed
    ["CLAIM_APPOINTMENTID"] ["ENCOUNTER_ID"] "" "_ENC"
  let j2 := dropCols (merge j1 patients_renamed ["CLAIM_PATIENTID"] ["Id"] "" "_PAT") ["Id"]
  let j3 := dropCols (merge j2 providers_renamed ["PROVIDERID"] ["Id"] "" "_PROV") ["Id"]
  let j4 := dropCols (merge j3 organizations_renamed ["ORGANIZATION"] ["Id"] "" "_ORG") ["Id"]
  let j5 := dropCols (merge j4 payers_renamed ["PAYER"] ["Id"] "" "_PAYER") ["Id"]
  let j6 := dropCols (merge j5 procedures_agg
    ["CLAIM_PATIENTID", "ENCOUNTER_ID"] ["PATIENT", "ENCOUNTER"] "" "_PROC")
    ["PATIENT", "ENCOUNTER"]
  let j7 := dropCols (merge j6 conditions_agg
    ["CLAIM_PATIENTID", "ENCOUNTER_ID"] ["PATIENT", "ENCOUNTER"] "" "_COND")
    ["PATIENT", "ENCOUNTER"]
  let j8 := dropCols (merge j7 medications_agg
    ["CLAIM_PATIENTID", "ENCOUNTER_ID"] ["PATIENT", "ENCOUNTER"] "" "_MED")
    ["PATIENT", "ENCOUNTER"]
  dropConflictCols j8

/-! ## Loading (`load_csv` and step 1 of `main`) -/

/-- `load_csv`: read one table, failing when the backing file is absent. -/
def load_csv (files : String → Option DataFrame) (name : String) :
    Except String DataFrame :=
  match files name with
  | some df => Except.ok df
  | none => Except.error ("Missing input file: " ++ name)

/-- The ten files step 1 loads, in load order. -/
def requiredFiles : List String :=
  ["claims.csv", "claims_transactions.csv", "encounters.csv", "patients.csv",
   "providers.csv", "organizations.csv", "payers.csv", "procedures.csv",
   "conditions.csv", "medications.csv"]

/-- The whole run: load the ten tables (aborting on the first missing
file), then execute the join pipeline. -/
def runPipeline (files : String → Option DataFrame) : Except String DataFrame := do
  let claims ← load_csv files "claims.csv"
  let claims_transactions ← load_csv files "claims_transactions.csv"
  let encounters ← load_csv files "encounters.csv"
  let patients ← load_csv files "patients.csv"
  let providers ← load_csv files "providers.csv"
  let organizations ← load_csv files "organizations.csv"
  let payers ← load_csv files "payers.csv"
  let procedures ← load_csv files "procedures.csv"
  let conditions ← load_csv files "conditions.csv"
  let medications ← load_csv files "medications.csv"
  pure (runJoin claims claims_transactions encounters patients providers
    organizations payers procedures conditions medications)

/-- Uniqueness of a table's declared key: no two rows share the same key
tuple. -/
def uniqueByKey (df : DataFrame) (keyCols : List String) : Prop :=
  (df.rows.map (keyOf df.cols keyCols)).Nodup

instance (df : DataFrame) (keyCols : List String) :
    Decidable (uniqueByKey df keyCols) := by
  unfold uniqueByKey; infer_instance

/-! ## Basic lemmas about the table operations -/

theorem maskList_map_filter {α : Type} (p : α → Bool) (l : List α) :
    maskList (l.map p) l = l.filter p := by
  induction l with
  | nil => rfl
  | cons a l ih =>
    simp only [List.map_cons, maskList, List.filter_cons]
    by_cases h : p a <;> simp [h, ih]

theorem dropCols_cols (df : DataFrame) (ns : List String) :
    (dropCols df ns).cols = df.cols.filter (fun c => !ns.contains c) := by
  simp [dropCols, maskList_map_filter]

theorem dropCols_rows_length (df : DataFrame) (ns : List String) :
    (dropCols df ns).rows.length = df.rows.length := by
  simp [dropCols]

theorem dropConflictCols_cols (df : DataFrame) :
    (dropConflictCols df).cols =
      df.cols.filter (fun c => !(df.cols.filter conflictMarker).contains c) := by
  simp [dropConflictCols, dropCols_cols]

theorem dropConflictCols_rows_length (df : DataFrame) :
    (dropConflictCols df).rows.length = df.rows.length := by
  simp [dropConflictCols, dropCols_rows_length]

theorem filter_length_le_one {α β : Type} [BEq β] [LawfulBEq β] (l : List α)
    (f : α → β) (k : β) (h : (l.map f).Nodup) :
    (l.filter (fun x => f x == k)).length ≤ 1 := by
  induction l with
  | nil => simp
  | cons a l ih =>
    simp only [List.map_cons, List.nodup_cons] at h
    obtain ⟨ha, hl⟩ := h
    by_cases hk : f a = k
    · have hnone : l.filter (fun x => f x == k) = [] := by
        refine List.filter_eq_nil_iff.mpr ?_
        intro x hx hfx
        simp only [beq_iff_eq] at hfx
        apply ha
        have hax : f a = f x := by rw [hfx, hk]
        rw [hax]
        exact List.mem_map_of_mem f hx
      simp [List.filter_cons, hk, hnone]
    · simpa [List.filter_cons, hk] using ih hl

theorem mergeRow_length_of_nodup (L R : DataFrame) (lOn rOn : List String)
    (lr : List (Option String))
    (h : (R.rows.map (keyOf R.cols rOn)).Nodup) :
    (mergeRow L R lOn rOn lr).length = 1 := by
  unfold mergeRow matchRows
  set ms := R.rows.filter (fun rr => keyOf R.cols rOn rr == keyOf L.cols lOn lr) with hms
  by_cases he : ms.isEmpty
  · simp [he]
  · have hle : ms.length ≤ 1 := by
      rw [hms]; exact filter_length_le_one _ _ _ h
    have hpos : 0 < ms.length := by
      cases hlen : ms.length with
      | zero => exact absurd (List.isEmpty_iff_length_eq_zero.mpr hlen) he
      | succ n => omega
    have hone : ms.length = 1 := by omega
    rw [if_neg he, List.length_map, hone]

theorem merge_rows_length_of_nodup (L R : DataFrame) (lOn rOn : List String)
    (ls rs : String) (h : (R.rows.map (keyOf R.cols rOn)).Nodup) :
    (merge L R lOn rOn ls rs).rows.length = L.rows.length := by
  simp only [merge, List.length_flatMap]
  have hmap : L.rows.map (List.length ∘ mergeRow L R lOn rOn) =
      L.rows.map (fun _ => 1) :=
    List.map_congr_left (fun lr _ => mergeRow_length_of_nodup L R lOn rOn lr h)
  rw [hmap]
  simp

theorem merge_rows_length_eq (L R : DataFrame) (lOn rOn : List String)
    (ls rs : String) :
    (merge L R lOn rOn ls rs).rows.length =
      (L.rows.map (fun lr =>
        max (matchRows R rOn (keyOf L.cols lOn lr)).length 1)).sum := by
  simp only [merge, List.length_flatMap]
  congr 1
  refine List.map_congr_left (fun lr _ => ?_)
  simp only [Function.comp_apply, mergeRow]
  by_cases he : (matchRows R rOn (keyOf L.cols lOn lr)).isEmpty
  · have h0 : (matchRows R rOn (keyOf L.cols lOn lr)).length = 0 :=
      List.isEmpty_iff_length_eq_zero.mp he
    simp [he, h0]
  · have h0 : (matchRows R rOn (keyOf L.cols lOn lr)).length ≠ 0 := by
      intro h
      exact he (List.isEmpty_iff_length_eq_zero.mpr h)
    rw [if_neg he, List.length_map]
    omega

theorem mergeRow_of_no_match (L R : DataFrame) (lOn rOn : List String)
    (lr : List (Option String))
    (h : matchRows R rOn (keyOf L.cols lOn lr) = []) :
    mergeRow L R lOn rOn lr = [lr ++ List.replicate R.cols.length none] := by
  simp [mergeRow, h]

theorem merge_rows_of_empty_right (L R : DataFrame) (lOn rOn : List String)
    (ls rs : String) (h : R.rows = []) :
    (merge L R lOn rOn ls rs).rows =
      L.rows.map (fun lr => lr ++ List.replicate R.cols.length none) := by
  have hrow : ∀ lr, mergeRow L R lOn rOn lr =
      [lr ++ List.replicate R.cols.length none] := by
    intro lr
    apply mergeRow_of_no_match
    simp [matchRows, h]
  simp only [merge]
  induction L.rows with
  | nil => rfl
  | cons a l ih => simp [List.flatMap_cons, hrow, ih]

/-! ## Column-index transfer under renaming -/

theorem colIdx_map (g : String → String) (cs : List String) (tgt src : String)
    (h : ∀ d ∈ cs, g d = tgt ↔ d = src) :
    colIdx (cs.map g) tgt = colIdx cs src := by
  induction cs with
  | nil => rfl
  | cons d ds ih =>
    have hd := h d (List.mem_cons_self d ds)
    have hds := fun e he => h e (List.mem_cons_of_mem d he)
    by_cases hcase : d = src
    · subst hcase
      simp [colIdx, hd.mpr rfl]
    · have : g d ≠ tgt := fun hgd => hcase (hd.mp hgd)
      simp [colIdx, hcase, this, ih hds]

theorem getCell_map_rename (g : String → String) (cs : List String)
    (r : List (Option String)) (tgt src : String)
    (h : ∀ d ∈ cs, g d = tgt ↔ d = src) :
    getCell (cs.map g) r tgt = getCell cs r src := by
  unfold getCell
  rw [colIdx_map g cs tgt src h]

theorem find?_keyed (f : String → String) (cs : List String) (c : String)
    (hc : c ∈ cs) :
    (cs.map (fun d => (d, f d))).find? (fun p => p.1 == c) = some (c, f c) := by
  induction cs with
  | nil => exact absurd hc (List.not_mem_nil c)
  | cons d ds ih =>
    by_cases hd : d = c
    · subst hd
      simp [List.find?_cons]
    · have : c ∈ ds := by
        rcases List.mem_cons.mp hc with h | h
        · exact absurd h.symm hd
        · exact h
      simp only [List.map_cons, List.find?_cons]
      have hne : ((d, f d).1 == c) = false := by
        simp [hd]
      rw [hne]
      exact ih this

theorem find?_keyed_none (f : String → String) (cs : List String) (c : String)
    (hc : c ∉ cs) :
    (cs.map (fun d => (d, f d))).find? (fun p => p.1 == c) = none := by
  refine List.find?_eq_none.mpr ?_
  intro p hp
  simp only [List.mem_map] at hp
  obtain ⟨d, hd, rfl⟩ := hp
  simp only [beq_iff_eq]
  intro hdc
  exact hc (hdc ▸ hd)

theorem renFun_prefixDict (pre : String) (cs : List String) (c : String)
    (hc : c ∈ cs) :
    renFun (prefixDict pre cs) c = if c = "Id" then c else pre ++ c := by
  unfold renFun prefixDict
  rw [find?_keyed _ cs c hc]
  rfl

theorem renFun_not_mem (m : List (String × String)) (c : String)
    (hc : ∀ p ∈ m, p.1 ≠ c) :
    renFun m c = c := by
  unfold renFun
  have : m.find? (fun p => p.1 == c) = none := by
    refine List.find?_eq_none.mpr ?_
    intro p hp
    simp [hc p hp]
  rw [this]
  rfl

theorem append_ne_of_short (pre c t : String) (h : t.length < pre.length) :
    pre ++ c ≠ t := by
  intro heq
  have hl := congrArg String.length heq
  rw [String.length_append] at hl
  omega

theorem renFun_prefixDict_Id_iff (pre : String) (cs : List String)
    (hpre : 2 < pre.length) :
    ∀ d ∈ cs, renFun (prefixDict pre cs) d = "Id" ↔ d = "Id" := by
  intro d hd
  rw [renFun_prefixDict pre cs d hd]
  by_cases hid : d = "Id"
  · simp [hid]
  · have hlen : ("Id" : String).length < pre.length := hpre
    simp [hid, append_ne_of_short pre d "Id" hlen]

theorem getCell_namespacer_Id (pre : String) (df : DataFrame)
    (hpre : 2 < pre.length) (r : List (Option String)) :
    getCell (namespacer pre df).cols r "Id" = getCell df.cols r "Id" := by
  show getCell (df.cols.map (renFun (prefixDict pre df.cols))) r "Id" =
    getCell df.cols r "Id"
  exact getCell_map_rename _ _ _ _ _ (renFun_prefixDict_Id_iff pre df.cols hpre)

theorem renFun_claimsDict_iff (cs : List String) (hno : "CLAIM_ID" ∉ cs) :
    ∀ c ∈ cs, renFun claimsDict c = "CLAIM_ID" ↔ c = "Id" := by
  intro c hc
  by_cases h1 : c = "Id"
  · subst h1; decide
  by_cases h2 : c = "PATIENTID"
  · subst h2; decide
  by_cases h3 : c = "PROVIDERID"
  · subst h3; decide
  by_cases h4 : c = "DEPARTMENTID"
  · subst h4; decide
  by_cases h5 : c = "APPOINTMENTID"
  · subst h5; decide
  by_cases h6 : c = "SUPERVISINGPROVIDERID"
  · subst h6; decide
  have hout : renFun claimsDict c = c := by
    apply renFun_not_mem
    intro p hp
    simp only [claimsDict, List.mem_cons, List.not_mem_nil, or_false] at hp
    rcases hp with rfl | rfl | rfl | rfl | rfl | rfl <;>
      simp only [ne_eq] <;> intro he <;>
        first
        | exact h1 he.symm
        | exact h2 he.symm
        | exact h3 he.symm
        | exact h4 he.symm
        | exact h5 he.symm
        | exact h6 he.symm
  rw [hout]
  constructor
  · intro he; exact absurd (he ▸ hc) hno
  · intro he; exact absurd he h1

theorem renFun_encountersDict_iff (cs : List String)
    (hno : "ENCOUNTER_ID" ∉ cs) :
    ∀ c ∈ cs, renFun encountersDict c = "ENCOUNTER_ID" ↔ c = "Id" := by
  intro c hc
  by_cases h1 : c = "Id"
  · subst h1; decide
  by_cases h2 : c = "START"
  · subst h2; decide
  by_cases h3 : c = "STOP"
  · subst h3; decide
  by_cases h4 : c = "CODE"
  · subst h4; decide
  by_cases h5 : c = "DESCRIPTION"
  · subst h5; decide
  by_cases h6 : c = "REASONCODE"
  · subst h6; decide
  by_cases h7 : c = "REASONDESCRIPTION"
  · subst h7; decide
  have hout : renFun encountersDict c = c := by
    apply renFun_not_mem
    intro p hp
    simp only [encountersDict, List.mem_cons, List.not_mem_nil, or_false] at hp
    rcases hp with rfl | rfl | rfl | rfl | rfl | rfl | rfl <;>
      simp only [ne_eq] <;> intro he <;>
        first
        | exact h1 he.symm
        | exact h2 he.symm
        | exact h3 he.symm
        | exact h4 he.symm
        | exact h5 he.symm
        | exact h6 he.symm
        | exact h7 he.symm
  rw [hout]
  constructor
  · intro he; exact absurd (he ▸ hc) hno
  · intro he; exact absurd he h1

theorem nodup_keys_namespacer (pre : String) (df : DataFrame)
    (hpre : 2 < pre.length) (h : uniqueByKey df ["Id"]) :
    ((namespacer pre df).rows.map
      (keyOf (namespacer pre df).cols ["Id"])).Nodup := by
  have hrows : (namespacer pre df).rows = df.rows := rfl
  rw [hrows]
  have hmap : df.rows.map (keyOf (namespacer pre df).cols ["Id"]) =
      df.rows.map (keyOf df.cols ["Id"]) := by
    refine List.map_congr_left (fun r _ => ?_)
    simp only [keyOf, List.map_cons, List.map_nil]
    rw [getCell_namespacer_Id pre df hpre r]
  rw [hmap]
  exact h

theorem nodup_keys_claims_renamed (claims : DataFrame)
    (hno : "CLAIM_ID" ∉ claims.cols) (h : uniqueByKey claims ["Id"]) :
    ((renameWith claimsDict claims).rows.map
      (keyOf (renameWith claimsDict claims).cols ["CLAIM_ID"])).Nodup := by
  have hrows : (renameWith claimsDict claims).rows = claims.rows := rfl
  rw [hrows]
  have hmap : claims.rows.map (keyOf (renameWith claimsDict claims).cols ["CLAIM_ID"]) =
      claims.rows.map (keyOf claims.cols ["Id"]) := by
    refine List.map_congr_left (fun r _ => ?_)
    simp only [keyOf, List.map_cons, List.map_nil]
    rw [show (renameWith claimsDict claims).cols =
      claims.cols.map (renFun claimsDict) from rfl]
    rw [getCell_map_rename _ _ _ _ _ (renFun_claimsDict_iff claims.cols hno)]
  rw [hmap]
  exact h

theorem nodup_keys_encounters_renamed (encounters : DataFrame)
    (hno : "ENCOUNTER_ID" ∉ encounters.cols) (h : uniqueByKey encounters ["Id"]) :
    ((renameWith encountersDict encounters).rows.map
      (keyOf (renameWith encountersDict encounters).cols ["ENCOUNTER_ID"])).Nodup := by
  have hrows : (renameWith encountersDict encounters).rows = encounters.rows := rfl
  rw [hrows]
  have hmap : encounters.rows.map
      (keyOf (renameWith encountersDict encounters).cols ["ENCOUNTER_ID"]) =
      encounters.rows.map (keyOf encounters.cols ["Id"]) := by
    refine List.map_congr_left (fun r _ => ?_)
    simp only [keyOf, List.map_cons, List.map_nil]
    rw [show (renameWith encountersDict encounters).cols =
      encounters.cols.map (renFun encountersDict) from rfl]
    rw [getCell_map_rename _ _ _ _ _ (renFun_encountersDict_iff encounters.cols hno)]
  rw [hmap]
  exact h

/-! ## Lemmas about the aggregation -/

theorem allSome_eq_some {α : Type} (l : List (Option α)) (xs : List α)
    (h : allSome l = some xs) : l = xs.map some := by
  induction l generalizing xs with
  | nil =>
    simp only [allSome, Option.some.injEq] at h
    subst h; rfl
  | cons a l ih =>
    cases a with
    | none => simp [allSome] at h
    | some v =>
      simp only [allSome, Option.map_eq_some'] at h
      obtain ⟨ys, hys, rfl⟩ := h
      simp [ih ys hys]

theorem allSome_map_some {α : Type} (xs : List α) :
    allSome (xs.map some) = some xs := by
  induction xs with
  | nil => rfl
  | cons a l ih => simp [allSome, ih]

theorem insertKey_perm (k : List String) (l : List (List String)) :
    (insertKey k l).Perm (k :: l) := by
  induction l with
  | nil => simp [insertKey]
  | cons x xs ih =>
    simp only [insertKey]
    by_cases h : listLe k x
    · simp [h]
    · simp only [h, if_false]
      exact (List.Perm.cons x ih).trans (List.Perm.swap k x xs)

theorem sortKeys_perm (l : List (List String)) : (sortKeys l).Perm l := by
  induction l with
  | nil => simp [sortKeys]
  | cons x xs ih =>
    simp only [sortKeys]
    exact ((insertKey_perm x (sortKeys xs)).trans (List.Perm.cons x ih))

theorem mem_sortKeys (l : List (List String)) (k : List String) :
    k ∈ sortKeys l ↔ k ∈ l :=
  (sortKeys_perm l).mem_iff

theorem nodup_sortKeys (l : List (List String)) (h : l.Nodup) :
    (sortKeys l).Nodup :=
  ((sortKeys_perm l).nodup_iff).mpr h

theorem aggKeys_nodup (df : DataFrame) (gcols : List String) :
    (aggKeys df gcols).Nodup :=
  nodup_sortKeys _ (List.nodup_dedup _)

theorem mem_aggKeys (df : DataFrame) (gcols : List String) (k : List String) :
    k ∈ aggKeys df gcols ↔ ∃ r ∈ df.rows, rowKey df gcols r = some k := by
  rw [aggKeys, mem_sortKeys, List.mem_dedup, List.mem_filterMap]

theorem mem_aggKeys_pair (df : DataFrame) (k : List String)
    (h : k ∈ aggKeys df ["PATIENT", "ENCOUNTER"]) :
    ∃ x y, k = [x, y] ∧ ∃ r ∈ df.rows,
      getCell df.cols r "PATIENT" = some x ∧
      getCell df.cols r "ENCOUNTER" = some y := by
  rw [mem_aggKeys] at h
  obtain ⟨r, hr, hk⟩ := h
  have hcells := allSome_eq_some _ _ hk
  simp only [List.map_cons, List.map_nil] at hcells
  rcases k with _ | ⟨x, k⟩
  · simp at hcells
  rcases k with _ | ⟨y, k⟩
  · simp at hcells
  rcases k with _ | ⟨z, k⟩
  · simp only [List.map_cons, List.map_nil, List.cons.injEq, and_true] at hcells
    exact ⟨x, y, rfl, r, hr, hcells.1, hcells.2⟩
  · simp at hcells

theorem prepareAgg_cols (df : DataFrame) (cn dn : String) :
    (prepareAgg df cn dn).cols = ["PATIENT", "ENCOUNTER", cn, dn] := by
  unfold prepareAgg
  by_cases h : df.isEmptyDF
  · simp [h]
  · simp only [h, Bool.not_false, if_true]
    unfold aggregate_clinical_data
    rw [if_neg h]
    rfl

theorem prepareAgg_rows (df : DataFrame) (cn dn : String) :
    (prepareAgg df cn dn).rows =
      if df.isEmptyDF then ([] : List (List (Option String)))
      else (aggKeys df ["PATIENT", "ENCOUNTER"]).map
        (aggRow df ["PATIENT", "ENCOUNTER"] "CODE" "DESCRIPTION") := by
  unfold prepareAgg
  by_cases h : df.isEmptyDF
  · simp [h]
  · simp only [h, Bool.not_false, if_true, if_false]
    unfold aggregate_clinical_data
    rw [if_neg h]
    rfl

theorem aggRow_pair_getD (df : DataFrame) (x y : String) :
    aggRow df ["PATIENT", "ENCOUNTER"] "CODE" "DESCRIPTION" [x, y] =
      [some x, some y,
       some (joinBar ((df.rows.filter (fun r =>
         ["PATIENT", "ENCOUNTER"].map (getCell df.cols r) ==
           [some x, some y])).filterMap (fun r => getCell df.cols r "CODE"))),
       some (joinBar ((df.rows.filter (fun r =>
         ["PATIENT", "ENCOUNTER"].map (getCell df.cols r) ==
           [some x, some y])).filterMap (fun r => getCell df.cols r "DESCRIPTION")))] := rfl

theorem prepareAgg_keys_nodup (df : DataFrame) (cn dn : String) :
    ((prepareAgg df cn dn).rows.map
      (keyOf (prepareAgg df cn dn).cols ["PATIENT", "ENCOUNTER"])).Nodup := by
  rw [prepareAgg_rows]
  by_cases h : df.isEmptyDF
  · simp [h]
  · rw [if_neg h, List.map_map]
    refine List.Nodup.map_on ?_ (aggKeys_nodup df ["PATIENT", "ENCOUNTER"])
    intro k1 h1 k2 h2 heq
    obtain ⟨x1, y1, rfl, -⟩ := mem_aggKeys_pair df k1 h1
    obtain ⟨x2, y2, rfl, -⟩ := mem_aggKeys_pair df k2 h2
    simp only [Function.comp_apply, prepareAgg_cols] at heq
    rw [show keyOf ["PATIENT", "ENCOUNTER", cn, dn] ["PATIENT", "ENCOUNTER"]
        (aggRow df ["PATIENT", "ENCOUNTER"] "CODE" "DESCRIPTION" [x1, y1]) =
        [some x1, some y1] from rfl] at heq
    rw [show keyOf ["PATIENT", "ENCOUNTER", cn, dn] ["PATIENT", "ENCOUNTER"]
        (aggRow df ["PATIENT", "ENCOUNTER"] "CODE" "DESCRIPTION" [x2, y2]) =
        [some x2, some y2] from rfl] at heq
    simp only [List.cons.injEq, Option.some.injEq, and_true] at heq
    simp [heq.1, heq.2]

/-! ## Claim theorems -/

/-- C1: for every valid input set (each dimension and claim table uniquely
keyed by `Id`, with no raw column already named after a key rename target),
the number of rows of the final joined output equals the number of rows of
the input ClaimTransaction table exactly. -/
theorem claim_C1_row_count_preservation
    (claims claims_transactions encounters patients providers organizations
      payers procedures conditions medications : DataFrame)
    (hC : uniqueByKey claims ["Id"]) (hCno : "CLAIM_ID" ∉ claims.cols)
    (hE : uniqueByKey encounters ["Id"])
    (hEno : "ENCOUNTER_ID" ∉ encounters.cols)
    (hP : uniqueByKey patients ["Id"]) (hPr : uniqueByKey providers ["Id"])
    (hO : uniqueByKey organizations ["Id"]) (hPy : uniqueByKey payers ["Id"]) :
    (runJoin claims claims_transactions encounters patients providers
      organizations payers procedures conditions medications).rows.length =
      claims_transactions.rows.length := by
  simp only [runJoin]
  rw [dropConflictCols_rows_length, dropCols_rows_length,
    merge_rows_length_of_nodup _ _ _ _ _ _
      (prepareAgg_keys_nodup medications "MEDICATION_CODES" "MEDICATION_DESCRIPTIONS"),
    dropCols_rows_length,
    merge_rows_length_of_nodup _ _ _ _ _ _
      (prepareAgg_keys_nodup conditions "CONDITION_CODES" "CONDITION_DESCRIPTIONS"),
    dropCols_rows_length,
    merge_rows_length_of_nodup _ _ _ _ _ _
      (prepareAgg_keys_nodup procedures "PROCEDURE_CODES" "PROCEDURE_DESCRIPTIONS"),
    dropCols_rows_length,
    merge_rows_length_of_nodup _ _ _ _ _ _
      (nodup_keys_namespacer "PAYER_" payers (by decide) hPy),
    dropCols_rows_length,
    merge_rows_length_of_nodup _ _ _ _ _ _
      (nodup_keys_namespacer "ORG_" organizations (by decide) hO),
    dropCols_rows_length,
    merge_rows_length_of_nodup _ _ _ _ _ _
      (nodup_keys_namespacer "PROVIDER_" providers (by decide) hPr),
    dropCols_rows_length,
    merge_rows_length_of_nodup _ _ _ _ _ _
      (nodup_keys_namespacer "PATIENT_" patients (by decide) hP),
    merge_rows_length_of_nodup _ _ _ _ _ _
      (nodup_keys_encounters_renamed encounters hEno hE),
    merge_rows_length_of_nodup _ _ _ _ _ _
      (nodup_keys_claims_renamed claims hCno hC)]

/-- Witness for C1 at a concrete one-transaction input set. -/
theorem claim_C1_row_count_preservation_witness :
    uniqueByKey ⟨["Id"], [[some "C1"]]⟩ ["Id"] ∧
    "CLAIM_ID" ∉ (⟨["Id"], [[some "C1"]]⟩ : DataFrame).cols ∧
    uniqueByKey ⟨["Id"], []⟩ ["Id"] ∧
    (runJoin ⟨["Id"], [[some "C1"]]⟩ ⟨["CLAIMID"], [[some "C1"]]⟩
      ⟨["Id"], []⟩ ⟨["Id"], []⟩ ⟨["Id"], []⟩ ⟨["Id"], []⟩ ⟨["Id"], []⟩
      ⟨["PATIENT", "ENCOUNTER", "CODE", "DESCRIPTION"], []⟩
      ⟨["PATIENT", "ENCOUNTER", "CODE", "DESCRIPTION"], []⟩
      ⟨["PATIENT", "ENCOUNTER", "CODE", "DESCRIPTION"], []⟩).rows.length =
      (⟨["CLAIMID"], [[some "C1"]]⟩ : DataFrame).rows.length :=
  ⟨by decide, by decide, by decide,
   claim_C1_row_count_preservation ⟨["Id"], [[some "C1"]]⟩
     ⟨["CLAIMID"], [[some "C1"]]⟩ ⟨["Id"], []⟩ ⟨["Id"], []⟩ ⟨["Id"], []⟩
     ⟨["Id"], []⟩ ⟨["Id"], []⟩
     ⟨["PATIENT", "ENCOUNTER", "CODE", "DESCRIPTION"], []⟩
     ⟨["PATIENT", "ENCOUNTER", "CODE", "DESCRIPTION"], []⟩
     ⟨["PATIENT", "ENCOUNTER", "CODE", "DESCRIPTION"], []⟩
     (by decide) (by decide) (by decide) (by decide) (by decide) (by decide)
     (by decide) (by decide)⟩

/-- C2 counterexample: on a schema-complete input set — the claims table
carries every column its rename maps (`Id`, `PATIENTID`, `PROVIDERID`,
`DEPARTMENTID`, `APPOINTMENTID`, `SUPERVISINGPROVIDERID`), the encounters
table carries `Id`, `ORGANIZATION` and `PAYER`, and every join key label
referenced by steps 4–10 is present on its side — a Provider table with
two rows sharing `Id = PR1` raises nothing: all nine joins execute and the
single transaction is multiplied into two output rows at the provider
join. -/
theorem claim_C2_counterexample :
    (runJoin
      ⟨["Id", "PATIENTID", "PROVIDERID", "DEPARTMENTID", "APPOINTMENTID",
        "SUPERVISINGPROVIDERID"],
       [[some "C1", some "P1", some "PR1", some "D1", some "E1",
         some "PR1"]]⟩
      ⟨["CLAIMID", "PROVIDERID"], [[some "C1", some "PR1"]]⟩
      ⟨["Id", "ORGANIZATION", "PAYER"], [[some "E1", some "O1", some "Y1"]]⟩
      ⟨["Id"], [[some "P1"]]⟩
      ⟨["Id", "NAME"], [[some "PR1", some "A"], [some "PR1", some "B"]]⟩
      ⟨["Id"], [[some "O1"]]⟩ ⟨["Id"], [[some "Y1"]]⟩
      ⟨["PATIENT", "ENCOUNTER", "CODE", "DESCRIPTION"], []⟩
      ⟨["PATIENT", "ENCOUNTER", "CODE", "DESCRIPTION"], []⟩
      ⟨["PATIENT", "ENCOUNTER", "CODE", "DESCRIPTION"], []⟩).rows.length = 2 ∧
    (⟨["CLAIMID", "PROVIDERID"], [[some "C1", some "PR1"]]⟩ :
      DataFrame).rows.length = 1 := by
  constructor
  · decide
  · decide

/-- C2 (amended): the pipeline contains no key-uniqueness check and raises
nothing; a left join against a right table with duplicate keys simply
multiplies rows — each left row is emitted once per matching right row
(and once, null-padded, when there is no match). -/
theorem claim_C2_join_multiplies_rows (L R : DataFrame) (lOn rOn : List String)
    (ls rs : String) :
    (merge L R lOn rOn ls rs).rows.length =
      (L.rows.map (fun lr =>
        max (matchRows R rOn (keyOf L.cols lOn lr)).length 1)).sum :=
  merge_rows_length_eq L R lOn rOn ls rs

/-- C4 counterexample: applying the Namespacer twice to a
never-before-prefixed dimension table double-prefixes the non-key column,
so the operation is not idempotent. -/
theorem claim_C4_counterexample :
    namespacer "PATIENT_" (namespacer "PATIENT_"
      ⟨["Id", "FIRST"], [[some "p1", some "Ann"]]⟩) ≠
    namespacer "PATIENT_" ⟨["Id", "FIRST"], [[some "p1", some "Ann"]]⟩ := by
  decide

/-- C4 (amended): the Namespacer as a table-to-table operation is not
idempotent (a second application double-prefixes); what does hold is that
re-applying the pandas rename with the dictionary computed from the
original columns is a no-op on a never-before-prefixed table: when no
column is the prefix-image of another, renaming twice with that fixed
dictionary equals renaming once (`Id` is the only column not renamed). -/
theorem claim_C4_fixed_dict_rename_idempotent (df : DataFrame) (pre : String)
    (h : ∀ c ∈ df.cols, c ≠ "Id" → pre ++ c ∉ df.cols) :
    renameWith (prefixDict pre df.cols)
      (renameWith (prefixDict pre df.cols) df) =
    renameWith (prefixDict pre df.cols) df := by
  have hcols : (df.cols.map (renFun (prefixDict pre df.cols))).map
      (renFun (prefixDict pre df.cols)) =
      df.cols.map (renFun (prefixDict pre df.cols)) := by
    rw [List.map_map]
    refine List.map_congr_left (fun c hc => ?_)
    show renFun (prefixDict pre df.cols) (renFun (prefixDict pre df.cols) c) =
      renFun (prefixDict pre df.cols) c
    rw [renFun_prefixDict pre df.cols c hc]
    by_cases hid : c = "Id"
    · rw [if_pos hid, hid, renFun_prefixDict pre df.cols "Id" (hid ▸ hc),
        if_pos rfl]
    · rw [if_neg hid]
      refine renFun_not_mem _ _ ?_
      intro q hq
      simp only [prefixDict, List.mem_map] at hq
      obtain ⟨d, hd, rfl⟩ := hq
      intro hdc
      exact h c hc hid (hdc ▸ hd)
  show DataFrame.mk _ _ = DataFrame.mk _ _
  rw [DataFrame.mk.injEq]
  exact ⟨hcols, rfl⟩

/-- Witness for the amended C4 at a concrete never-before-prefixed table. -/
theorem claim_C4_fixed_dict_rename_idempotent_witness :
    (∀ c ∈ (⟨["Id", "FIRST"], [[some "p1", some "Ann"]]⟩ : DataFrame).cols,
      c ≠ "Id" → "PATIENT_" ++ c ∉
        (⟨["Id", "FIRST"], [[some "p1", some "Ann"]]⟩ : DataFrame).cols) ∧
    renameWith (prefixDict "PATIENT_"
        (⟨["Id", "FIRST"], [[some "p1", some "Ann"]]⟩ : DataFrame).cols)
      (renameWith (prefixDict "PATIENT_"
          (⟨["Id", "FIRST"], [[some "p1", some "Ann"]]⟩ : DataFrame).cols)
        ⟨["Id", "FIRST"], [[some "p1", some "Ann"]]⟩) =
    renameWith (prefixDict "PATIENT_"
        (⟨["Id", "FIRST"], [[some "p1", some "Ann"]]⟩ : DataFrame).cols)
      ⟨["Id", "FIRST"], [[some "p1", some "Ann"]]⟩ :=
  ⟨by decide,
   claim_C4_fixed_dict_rename_idempotent
     ⟨["Id", "FIRST"], [[some "p1", some "Ann"]]⟩ "PATIENT_" (by decide)⟩

/-- C10: in a merge invoked with an empty left suffix, the columns of the
accumulated left-hand result keep their names unchanged; only columns
contributed by the right-hand table can receive the conflict suffix. -/
theorem claim_C10_left_columns_unchanged (L R : DataFrame)
    (lOn rOn : List String) (rsuf : String) :
    (merge L R lOn rOn "" rsuf).cols =
      L.cols ++ R.cols.map (fun c => if L.cols.contains c then c ++ rsuf else c) := by
  simp only [merge, suffixCols]
  congr 1
  have : ∀ c ∈ L.cols,
      (if R.cols.contains c then c ++ "" else c) = c := by
    intro c _
    by_cases hc : R.cols.contains c
    · rw [if_pos hc, String.append_empty]
    · rw [if_neg hc]
  rw [List.map_congr_left this]
  exact List.map_id' L.cols

theorem mem_dropConflictCols (df : DataFrame) (c : String) :
    c ∈ (dropConflictCols df).cols ↔ c ∈ df.cols ∧ conflictMarker c = false := by
  rw [dropConflictCols_cols, List.mem_filter]
  constructor
  · rintro ⟨h1, h2⟩
    refine ⟨h1, ?_⟩
    cases hb : conflictMarker c
    · rfl
    · exfalso
      have hmem : c ∈ df.cols.filter conflictMarker :=
        List.mem_filter.mpr ⟨h1, hb⟩
      have hcontains : (df.cols.filter conflictMarker).contains c = true := by
        simpa using hmem
      rw [hcontains] at h2
      simp at h2
  · rintro ⟨h1, h2⟩
    refine ⟨h1, ?_⟩
    have hnotmem : c ∉ df.cols.filter conflictMarker := by
      intro hmem
      have hmk := (List.mem_filter.mp hmem).2
      rw [h2] at hmk
      simp at hmk
    have hcontains : (df.cols.filter conflictMarker).contains c = false := by
      simpa using hnotmem
    rw [hcontains]
    rfl

/-- C5: the final output contains zero column names matching the
join-conflict-marker pattern (the `_x`/`_y` suffixes pandas appends when
both sides of a merge contributed an identically named column), and the
collision-cleanup step never removes a column whose name does not match
that pattern. -/
theorem claim_C5_no_residual_conflict_markers
    (claims claims_transactions encounters patients providers organizations
      payers procedures conditions medications : DataFrame) (c : String) :
    (c ∈ (runJoin claims claims_transactions encounters patients providers
        organizations payers procedures conditions medications).cols →
      conflictMarker c = false) ∧
    (∀ df : DataFrame, c ∈ df.cols → conflictMarker c = false →
      c ∈ (dropConflictCols df).cols) := by
  constructor
  · intro hc
    simp only [runJoin] at hc
    exact ((mem_dropConflictCols _ c).mp hc).2
  · intro df h1 h2
    exact (mem_dropConflictCols df c).mpr ⟨h1, h2⟩

/-- Witness for C5: a non-marker column of a concrete run survives, and
the cleanup keeps a concrete non-marker column of a table that also has a
marker column. -/
theorem claim_C5_no_residual_conflict_markers_witness :
    conflictMarker "CLAIMID" = false ∧
    "CLAIMID" ∈ (dropConflictCols ⟨["CLAIMID", "AMOUNT_x"], []⟩).cols :=
  ⟨(claim_C5_no_residual_conflict_markers ⟨["Id"], [[some "C1"]]⟩
      ⟨["CLAIMID"], [[some "C1"]]⟩ ⟨["Id"], []⟩ ⟨["Id"], []⟩ ⟨["Id"], []⟩
      ⟨["Id"], []⟩ ⟨["Id"], []⟩
      ⟨["PATIENT", "ENCOUNTER", "CODE", "DESCRIPTION"], []⟩
      ⟨["PATIENT", "ENCOUNTER", "CODE", "DESCRIPTION"], []⟩
      ⟨["PATIENT", "ENCOUNTER", "CODE", "DESCRIPTION"], []⟩ "CLAIMID").1
      (by decide),
   (claim_C5_no_residual_conflict_markers ⟨["Id"], [[some "C1"]]⟩
      ⟨["CLAIMID"], [[some "C1"]]⟩ ⟨["Id"], []⟩ ⟨["Id"], []⟩ ⟨["Id"], []⟩
      ⟨["Id"], []⟩ ⟨["Id"], []⟩
      ⟨["PATIENT", "ENCOUNTER", "CODE", "DESCRIPTION"], []⟩
      ⟨["PATIENT", "ENCOUNTER", "CODE", "DESCRIPTION"], []⟩
      ⟨["PATIENT", "ENCOUNTER", "CODE", "DESCRIPTION"], []⟩ "CLAIMID").2
      ⟨["CLAIMID", "AMOUNT_x"], []⟩ (by decide) (by decide)⟩

/-- C6: if any required table file is absent the run fails with a
missing-input error during loading (nothing is produced); when every
required file is present, loading fully succeeds and the pipeline
produces an output — no partial state in between. -/
theorem claim_C6_missing_input_aborts (files : String → Option DataFrame) :
    ((∃ n ∈ requiredFiles, files n = none) →
      ∃ e, runPipeline files = Except.error e) ∧
    ((∀ n ∈ requiredFiles, (files n).isSome) →
      ∃ df, runPipeline files = Except.ok df) := by
  constructor
  · rintro ⟨n, hn, hnone⟩
    rcases h1 : files "claims.csv" with _ | d1
    · exact ⟨"Missing input file: claims.csv", by
        simp [runPipeline, load_csv, h1, Except.bind, Except.map, bind,
          Functor.map, Except.instMonad]⟩
    rcases h2 : files "claims_transactions.csv" with _ | d2
    · exact ⟨"Missing input file: claims_transactions.csv", by
        simp [runPipeline, load_csv, h1, h2, Except.bind, Except.map, bind,
          Functor.map, Except.instMonad]⟩
    rcases h3 : files "encounters.csv" with _ | d3
    · exact ⟨"Missing input file: encounters.csv", by
        simp [runPipeline, load_csv, h1, h2, h3, Except.bind, Except.map, bind,
          Functor.map, Except.instMonad]⟩
    rcases h4 : files "patients.csv" with _ | d4
    · exact ⟨"Missing input file: patients.csv", by
        simp [runPipeline, load_csv, h1, h2, h3, h4, Except.bind, Except.map,
          bind, Functor.map, Except.instMonad]⟩
    rcases h5 : files "providers.csv" with _ | d5
    · exact ⟨"Missing input file: providers.csv", by
        simp [runPipeline, load_csv, h1, h2, h3, h4, h5, Except.bind,
          Except.map, bind, Functor.map, Except.instMonad]⟩
    rcases h6 : files "organizations.csv" with _ | d6
    · exact ⟨"Missing input file: organizations.csv", by
        simp [runPipeline, load_csv, h1, h2, h3, h4, h5, h6, Except.bind,
          Except.map, bind, Functor.map, Except.instMonad]⟩
    rcases h7 : files "payers.csv" with _ | d7
    · exact ⟨"Missing input file: payers.csv", by
        simp [runPipeline, load_csv, h1, h2, h3, h4, h5, h6, h7, Except.bind,
          Except.map, bind, Functor.map, Except.instMonad]⟩
    rcases h8 : files "procedures.csv" with _ | d8
    · exact ⟨"Missing input file: procedures.csv", by
        simp [runPipeline, load_csv, h1, h2, h3, h4, h5, h6, h7, h8,
          Except.bind, Except.map, bind, Functor.map, Except.instMonad]⟩
    rcases h9 : files "conditions.csv" with _ | d9
    · exact ⟨"Missing input file: conditions.csv", by
        simp [runPipeline, load_csv, h1, h2, h3, h4, h5, h6, h7, h8, h9,
          Except.bind, Except.map, bind, Functor.map, Except.instMonad]⟩
    rcases h10 : files "medications.csv" with _ | d10
    · exact ⟨"Missing input file: medications.csv", by
        simp [runPipeline, load_csv, h1, h2, h3, h4, h5, h6, h7, h8, h9, h10,
          Except.bind, Except.map, bind, Functor.map, Except.instMonad]⟩
    exfalso
    simp only [requiredFiles, List.mem_cons, List.not_mem_nil, or_false] at hn
    rcases hn with rfl | rfl | rfl | rfl | rfl | rfl | rfl | rfl | rfl | rfl <;>
      simp_all
  · intro hall
    have g1 := hall "claims.csv" (by simp [requiredFiles])
    have g2 := hall "claims_transactions.csv" (by simp [requiredFiles])
    have g3 := hall "encounters.csv" (by simp [requiredFiles])
    have g4 := hall "patients.csv" (by simp [requiredFiles])
    have g5 := hall "providers.csv" (by simp [requiredFiles])
    have g6 := hall "organizations.csv" (by simp [requiredFiles])
    have g7 := hall "payers.csv" (by simp [requiredFiles])
    have g8 := hall "procedures.csv" (by simp [requiredFiles])
    have g9 := hall "conditions.csv" (by simp [requiredFiles])
    have g10 := hall "medications.csv" (by simp [requiredFiles])
    obtain ⟨d1, h1⟩ := Option.isSome_iff_exists.mp g1
    obtain ⟨d2, h2⟩ := Option.isSome_iff_exists.mp g2
    obtain ⟨d3, h3⟩ := Option.isSome_iff_exists.mp g3
    obtain ⟨d4, h4⟩ := Option.isSome_iff_exists.mp g4
    obtain ⟨d5, h5⟩ := Option.isSome_iff_exists.mp g5
    obtain ⟨d6, h6⟩ := Option.isSome_iff_exists.mp g6
    obtain ⟨d7, h7⟩ := Option.isSome_iff_exists.mp g7
    obtain ⟨d8, h8⟩ := Option.isSome_iff_exists.mp g8
    obtain ⟨d9, h9⟩ := Option.isSome_iff_exists.mp g9
    obtain ⟨d10, h10⟩ := Option.isSome_iff_exists.mp g10
    exact ⟨runJoin d1 d2 d3 d4 d5 d6 d7 d8 d9 d10, by
      simp [runPipeline, load_csv, h1, h2, h3, h4, h5, h6, h7, h8, h9, h10,
        Except.bind, Except.map, bind, Functor.map, Except.instMonad,
        Except.pure, pure]⟩

/-- Witness for C6 at a concrete file system missing `providers.csv`. -/
theorem claim_C6_missing_input_aborts_witness :
    (∃ n ∈ requiredFiles,
      (fun name => if name = "providers.csv" then none
        else some (⟨["Id"], []⟩ : DataFrame)) n = none) ∧
    ∃ e, runPipeline (fun name => if name = "providers.csv" then none
      else some (⟨["Id"], []⟩ : DataFrame)) = Except.error e :=
  ⟨⟨"providers.csv", by decide, by decide⟩,
   (claim_C6_missing_input_aborts
     (fun name => if name = "providers.csv" then none
       else some (⟨["Id"], []⟩ : DataFrame))).1
     ⟨"providers.csv", by decide, by decide⟩⟩

theorem bool_eq_of_iff (u v : Bool) (h : u = true ↔ v = true) : u = v := by
  cases u <;> cases v <;> simp_all

theorem filter_eq_singleton_of_nodup {α : Type} [BEq α] [LawfulBEq α]
    (l : List α) (a : α) (hnd : l.Nodup) (ha : a ∈ l) :
    l.filter (fun x => x == a) = [a] := by
  induction l with
  | nil => exact absurd ha (List.not_mem_nil a)
  | cons b l ih =>
    simp only [List.nodup_cons] at hnd
    obtain ⟨hb, hl⟩ := hnd
    by_cases hba : b = a
    · subst hba
      have hrest : l.filter (fun x => x == b) = [] := by
        refine List.filter_eq_nil_iff.mpr ?_
        intro x hx hbeq
        simp only [beq_iff_eq] at hbeq
        exact hb (hbeq ▸ hx)
      simp [List.filter_cons, hrest]
    · have ha' : a ∈ l := by
        rcases List.mem_cons.mp ha with h | h
        · exact absurd h.symm hba
        · exact h
      have hbeq : (b == a) = false := by simp [hba]
      simp [List.filter_cons, hbeq, ih hl ha']

/-- C7: an empty clinical-fact table yields an empty aggregate that still
has the key columns and the kind-specific codes/descriptions columns, and
any downstream left join against it keeps every left row, null-padded in
the four aggregate columns. -/
theorem claim_C7_empty_fact_aggregate (df : DataFrame) (cn dn : String)
    (h : df.rows = []) :
    prepareAgg df cn dn = ⟨["PATIENT", "ENCOUNTER", cn, dn], []⟩ ∧
    ∀ (L : DataFrame) (lOn rOn : List String) (suf : String),
      (merge L (prepareAgg df cn dn) lOn rOn "" suf).rows =
        L.rows.map (fun lr => lr ++ List.replicate 4 none) := by
  have hemp : df.isEmptyDF = true := by simp [DataFrame.isEmptyDF, h]
  have h1 : prepareAgg df cn dn = ⟨["PATIENT", "ENCOUNTER", cn, dn], []⟩ := by
    simp [prepareAgg, hemp]
  refine ⟨h1, ?_⟩
  intro L lOn rOn suf
  have hrows : (prepareAgg df cn dn).rows = [] := by rw [h1]
  have hlen : (prepareAgg df cn dn).cols.length = 4 := by rw [h1]; rfl
  rw [merge_rows_of_empty_right _ _ _ _ _ _ hrows, hlen]

/-- Witness for C7 at a concrete empty procedures table. -/
theorem claim_C7_empty_fact_aggregate_witness :
    (⟨["PATIENT", "ENCOUNTER", "CODE", "DESCRIPTION"], []⟩ :
      DataFrame).rows = [] ∧
    (merge ⟨["CLAIM_PATIENTID"], [[some "p1"]]⟩
      (prepareAgg ⟨["PATIENT", "ENCOUNTER", "CODE", "DESCRIPTION"], []⟩
        "PROCEDURE_CODES" "PROCEDURE_DESCRIPTIONS")
      ["CLAIM_PATIENTID", "ENCOUNTER_ID"] ["PATIENT", "ENCOUNTER"]
      "" "_PROC").rows = [[some "p1", none, none, none, none]] :=
  ⟨rfl, by
    rw [(claim_C7_empty_fact_aggregate
      ⟨["PATIENT", "ENCOUNTER", "CODE", "DESCRIPTION"], []⟩
      "PROCEDURE_CODES" "PROCEDURE_DESCRIPTIONS" rfl).2
      ⟨["CLAIM_PATIENTID"], [[some "p1"]]⟩
      ["CLAIM_PATIENTID", "ENCOUNTER_ID"] ["PATIENT", "ENCOUNTER"] "_PROC"]
    decide⟩

/-- C8: a transaction whose claim's `CLAIM_APPOINTMENTID` matches no
Encounter `Id` still contributes exactly one output row to the encounter
join — its own cells followed by a null cell for every encounter column —
and that row is present in the merged result.  The join is keyed on the
claim's renamed `CLAIM_APPOINTMENTID` against the renamed `ENCOUNTER_ID`. -/
theorem claim_C8_unmatched_encounter (encounters lhs : DataFrame)
    (lr : List (Option String))
    (hno : "ENCOUNTER_ID" ∉ encounters.cols) (hlr : lr ∈ lhs.rows)
    (hnm : ∀ er ∈ encounters.rows,
      getCell encounters.cols er "Id" ≠
        getCell lhs.cols lr "CLAIM_APPOINTMENTID") :
    mergeRow lhs (renameWith encountersDict encounters)
      ["CLAIM_APPOINTMENTID"] ["ENCOUNTER_ID"] lr =
      [lr ++ List.replicate encounters.cols.length none] ∧
    (lr ++ List.replicate encounters.cols.length none) ∈
      (merge lhs (renameWith encountersDict encounters)
        ["CLAIM_APPOINTMENTID"] ["ENCOUNTER_ID"] "" "_ENC").rows := by
  have hcols : (renameWith encountersDict encounters).cols.length =
      encounters.cols.length := by
    simp [renameWith]
  have hmatch : matchRows (renameWith encountersDict encounters)
      ["ENCOUNTER_ID"] (keyOf lhs.cols ["CLAIM_APPOINTMENTID"] lr) = [] := by
    refine List.filter_eq_nil_iff.mpr ?_
    intro rr hrr hbeq
    have hrr' : rr ∈ encounters.rows := hrr
    have hcell : getCell (renameWith encountersDict encounters).cols rr
        "ENCOUNTER_ID" = getCell encounters.cols rr "Id" := by
      show getCell (encounters.cols.map (renFun encountersDict)) rr
        "ENCOUNTER_ID" = getCell encounters.cols rr "Id"
      exact getCell_map_rename _ _ _ _ _
        (renFun_encountersDict_iff encounters.cols hno)
    simp only [keyOf, List.map_cons, List.map_nil, beq_iff_eq,
      List.cons.injEq, and_true] at hbeq
    rw [hcell] at hbeq
    exact hnm rr hrr' hbeq
  have h1 : mergeRow lhs (renameWith encountersDict encounters)
      ["CLAIM_APPOINTMENTID"] ["ENCOUNTER_ID"] lr =
      [lr ++ List.replicate encounters.cols.length none] := by
    rw [mergeRow_of_no_match _ _ _ _ _ hmatch, hcols]
  refine ⟨h1, ?_⟩
  show _ ∈ lhs.rows.flatMap
    (mergeRow lhs (renameWith encountersDict encounters)
      ["CLAIM_APPOINTMENTID"] ["ENCOUNTER_ID"])
  refine List.mem_flatMap.mpr ⟨lr, hlr, ?_⟩
  rw [h1]
  exact List.mem_singleton.mpr rfl

/-- Witness for C8 at the spec's example: `CLAIM_APPOINTMENTID = E9` with
no Encounter row `Id = E9`. -/
theorem claim_C8_unmatched_encounter_witness :
    "ENCOUNTER_ID" ∉ (⟨["Id", "START"], [[some "E1", some "s"]]⟩ :
      DataFrame).cols ∧
    mergeRow ⟨["CLAIMID", "CLAIM_APPOINTMENTID"], [[some "C1", some "E9"]]⟩
      (renameWith encountersDict ⟨["Id", "START"], [[some "E1", some "s"]]⟩)
      ["CLAIM_APPOINTMENTID"] ["ENCOUNTER_ID"] [some "C1", some "E9"] =
      [[some "C1", some "E9", none, none]] :=
  ⟨by decide,
   by
    have hth := (claim_C8_unmatched_encounter
      ⟨["Id", "START"], [[some "E1", some "s"]]⟩
      ⟨["CLAIMID", "CLAIM_APPOINTMENTID"], [[some "C1", some "E9"]]⟩
      [some "C1", some "E9"] (by decide) (by decide) (by decide)).1
    rw [hth]
    decide⟩

/-- C9: a ClinicalAggregate row exists for a (patient, encounter) pair iff
at least one clinical fact row exists for that pair, and a left-hand row
keyed to a pair with no facts is kept by the left join as a single row
with null aggregate columns rather than dropped. -/
theorem claim_C9_aggregate_exists_iff (df : DataFrame) (cn dn p e : String) :
    ((∃ row ∈ (prepareAgg df cn dn).rows,
        getCell (prepareAgg df cn dn).cols row "PATIENT" = some p ∧
        getCell (prepareAgg df cn dn).cols row "ENCOUNTER" = some e) ↔
      (∃ r ∈ df.rows, getCell df.cols r "PATIENT" = some p ∧
        getCell df.cols r "ENCOUNTER" = some e)) ∧
    (∀ (L : DataFrame) (lr : List (Option String)),
      keyOf L.cols ["CLAIM_PATIENTID", "ENCOUNTER_ID"] lr =
        [some p, some e] →
      (¬∃ r ∈ df.rows, getCell df.cols r "PATIENT" = some p ∧
        getCell df.cols r "ENCOUNTER" = some e) →
      mergeRow L (prepareAgg df cn dn) ["CLAIM_PATIENTID", "ENCOUNTER_ID"]
        ["PATIENT", "ENCOUNTER"] lr = [lr ++ List.replicate 4 none]) := by
  constructor
  · constructor
    · rintro ⟨row, hrow, hP, hE⟩
      rw [prepareAgg_rows] at hrow
      by_cases hemp : df.isEmptyDF
      · rw [if_pos hemp] at hrow
        exact absurd hrow (List.not_mem_nil row)
      · rw [if_neg hemp] at hrow
        obtain ⟨k, hk, hrowk⟩ := List.mem_map.mp hrow
        obtain ⟨x, y, rfl, r, hr, hrx, hry⟩ := mem_aggKeys_pair df k hk
        subst hrowk
        rw [prepareAgg_cols] at hP hE
        have hgx : getCell ["PATIENT", "ENCOUNTER", cn, dn]
            (aggRow df ["PATIENT", "ENCOUNTER"] "CODE" "DESCRIPTION" [x, y])
            "PATIENT" = some x := rfl
        have hgy : getCell ["PATIENT", "ENCOUNTER", cn, dn]
            (aggRow df ["PATIENT", "ENCOUNTER"] "CODE" "DESCRIPTION" [x, y])
            "ENCOUNTER" = some y := rfl
        rw [hgx] at hP
        rw [hgy] at hE
        have hxp : x = p := Option.some.inj hP
        have hye : y = e := Option.some.inj hE
        exact ⟨r, hr, hxp ▸ hrx, hye ▸ hry⟩
    · rintro ⟨r, hr, hp, he⟩
      have hcolsne : df.cols ≠ [] := by
        intro hc
        rw [hc] at hp
        simp [getCell, colIdx] at hp
      have hrowsne : df.rows ≠ [] := by
        intro h0
        rw [h0] at hr
        exact List.not_mem_nil r hr
      have hemp : ¬df.isEmptyDF = true := by
        simp [DataFrame.isEmptyDF, List.isEmpty_iff, hrowsne, hcolsne]
      have hk : [p, e] ∈ aggKeys df ["PATIENT", "ENCOUNTER"] := by
        refine (mem_aggKeys df _ _).mpr ⟨r, hr, ?_⟩
        show allSome (["PATIENT", "ENCOUNTER"].map (getCell df.cols r)) =
          some [p, e]
        simp only [List.map_cons, List.map_nil]
        rw [hp, he]
        rfl
      refine ⟨aggRow df ["PATIENT", "ENCOUNTER"] "CODE" "DESCRIPTION" [p, e],
        ?_, ?_, ?_⟩
      · rw [prepareAgg_rows, if_neg hemp]
        exact List.mem_map_of_mem _ hk
      · rw [prepareAgg_cols]; rfl
      · rw [prepareAgg_cols]; rfl
  · intro L lr hkey hnone
    have h4 : (prepareAgg df cn dn).cols.length = 4 := by
      rw [prepareAgg_cols]; rfl
    have hmatch : matchRows (prepareAgg df cn dn) ["PATIENT", "ENCOUNTER"]
        (keyOf L.cols ["CLAIM_PATIENTID", "ENCOUNTER_ID"] lr) = [] := by
      refine List.filter_eq_nil_iff.mpr ?_
      intro rr hrr hbeq
      rw [hkey] at hbeq
      rw [prepareAgg_rows] at hrr
      by_cases hemp : df.isEmptyDF
      · rw [if_pos hemp] at hrr
        exact List.not_mem_nil rr hrr
      · rw [if_neg hemp] at hrr
        obtain ⟨k, hk, hrowk⟩ := List.mem_map.mp hrr
        obtain ⟨x, y, rfl, r, hr, hrx, hry⟩ := mem_aggKeys_pair df k hk
        subst hrowk
        have hkeyrr : keyOf (prepareAgg df cn dn).cols ["PATIENT", "ENCOUNTER"]
            (aggRow df ["PATIENT", "ENCOUNTER"] "CODE" "DESCRIPTION" [x, y]) =
            [some x, some y] := by
          rw [prepareAgg_cols]; rfl
        rw [hkeyrr] at hbeq
        simp only [beq_iff_eq, List.cons.injEq, and_true,
          Option.some.injEq] at hbeq
        obtain ⟨hxp, hye⟩ := hbeq
        exact hnone ⟨r, hr, hxp ▸ hrx, hye ▸ hry⟩
    rw [mergeRow_of_no_match _ _ _ _ _ hmatch, h4]

/-- Witness for C9: the aggregate of a one-row fact table has a row for
its (patient, encounter) pair, and a left row keyed to a pair with no
facts is padded with four nulls. -/
theorem claim_C9_aggregate_exists_iff_witness :
    (∃ row ∈ (prepareAgg
        ⟨["PATIENT", "ENCOUNTER", "CODE", "DESCRIPTION"],
         [[some "P1", some "E1", some "123", some "Flu"]]⟩
        "PROCEDURE_CODES" "PROCEDURE_DESCRIPTIONS").rows,
      getCell (prepareAgg
        ⟨["PATIENT", "ENCOUNTER", "CODE", "DESCRIPTION"],
         [[some "P1", some "E1", some "123", some "Flu"]]⟩
        "PROCEDURE_CODES" "PROCEDURE_DESCRIPTIONS").cols row "PATIENT" =
        some "P1" ∧
      getCell (prepareAgg
        ⟨["PATIENT", "ENCOUNTER", "CODE", "DESCRIPTION"],
         [[some "P1", some "E1", some "123", some "Flu"]]⟩
        "PROCEDURE_CODES" "PROCEDURE_DESCRIPTIONS").cols row "ENCOUNTER" =
        some "E1") ∧
    mergeRow ⟨["CLAIM_PATIENTID", "ENCOUNTER_ID"], [[some "P9", some "E9"]]⟩
      (prepareAgg
        ⟨["PATIENT", "ENCOUNTER", "CODE", "DESCRIPTION"],
         [[some "P1", some "E1", some "123", some "Flu"]]⟩
        "PROCEDURE_CODES" "PROCEDURE_DESCRIPTIONS")
      ["CLAIM_PATIENTID", "ENCOUNTER_ID"] ["PATIENT", "ENCOUNTER"]
      [some "P9", some "E9"] =
      [[some "P9", some "E9", none, none, none, none]] :=
  ⟨(claim_C9_aggregate_exists_iff
      ⟨["PATIENT", "ENCOUNTER", "CODE", "DESCRIPTION"],
       [[some "P1", some "E1", some "123", some "Flu"]]⟩
      "PROCEDURE_CODES" "PROCEDURE_DESCRIPTIONS" "P1" "E1").1.mpr
      (by decide),
   by
    have hth := (claim_C9_aggregate_exists_iff
      ⟨["PATIENT", "ENCOUNTER", "CODE", "DESCRIPTION"],
       [[some "P1", some "E1", some "123", some "Flu"]]⟩
      "PROCEDURE_CODES" "PROCEDURE_DESCRIPTIONS" "P9" "E9").2
      ⟨["CLAIM_PATIENTID", "ENCOUNTER_ID"], [[some "P9", some "E9"]]⟩
      [some "P9", some "E9"] (by decide) (by decide)
    rw [hth]
    decide⟩

/-- C3: for every fact table and (patient, encounter) group, the aggregate
row for that group carries exactly the group's non-null codes joined with
`|` in original input row order, and likewise the non-null descriptions —
dropping a null/blank description does not affect the codes list. -/
theorem claim_C3_aggregation (df : DataFrame) (p e : String)
    (h : ∃ r ∈ df.rows, getCell df.cols r "PATIENT" = some p ∧
      getCell df.cols r "ENCOUNTER" = some e) :
    (aggregate_clinical_data df ["PATIENT", "ENCOUNTER"] "CODE"
        "DESCRIPTION").rows.filter
      (fun row => row.getD 0 none == some p && row.getD 1 none == some e) =
    [[some p, some e,
      some (joinBar ((df.rows.filter (fun r =>
        getCell df.cols r "PATIENT" == some p &&
        getCell df.cols r "ENCOUNTER" == some e)).filterMap
          (fun r => getCell df.cols r "CODE"))),
      some (joinBar ((df.rows.filter (fun r =>
        getCell df.cols r "PATIENT" == some p &&
        getCell df.cols r "ENCOUNTER" == some e)).filterMap
          (fun r => getCell df.cols r "DESCRIPTION")))]] := by
  obtain ⟨r0, hr0, hp0, he0⟩ := h
  have hcolsne : df.cols ≠ [] := by
    intro hc
    rw [hc] at hp0
    simp [getCell, colIdx] at hp0
  have hrowsne : df.rows ≠ [] := by
    intro h0
    rw [h0] at hr0
    exact List.not_mem_nil r0 hr0
  have hemp : ¬df.isEmptyDF = true := by
    simp [DataFrame.isEmptyDF, List.isEmpty_iff, hrowsne, hcolsne]
  have hmem : [p, e] ∈ aggKeys df ["PATIENT", "ENCOUNTER"] := by
    refine (mem_aggKeys df _ _).mpr ⟨r0, hr0, ?_⟩
    show allSome (["PATIENT", "ENCOUNTER"].map (getCell df.cols r0)) =
      some [p, e]
    simp only [List.map_cons, List.map_nil]
    rw [hp0, he0]
    rfl
  have hrows : (aggregate_clinical_data df ["PATIENT", "ENCOUNTER"] "CODE"
      "DESCRIPTION").rows =
      (aggKeys df ["PATIENT", "ENCOUNTER"]).map
        (aggRow df ["PATIENT", "ENCOUNTER"] "CODE" "DESCRIPTION") := by
    unfold aggregate_clinical_data
    rw [if_neg hemp]
    rfl
  rw [hrows, List.filter_map]
  have hpred : ∀ k ∈ aggKeys df ["PATIENT", "ENCOUNTER"],
      ((fun row => row.getD 0 none == some p && row.getD 1 none == some e) ∘
        (aggRow df ["PATIENT", "ENCOUNTER"] "CODE" "DESCRIPTION")) k =
      (k == [p, e]) := by
    intro k hk
    obtain ⟨x, y, rfl, -⟩ := mem_aggKeys_pair df k hk
    show ((aggRow df ["PATIENT", "ENCOUNTER"] "CODE" "DESCRIPTION"
        [x, y]).getD 0 none == some p &&
      (aggRow df ["PATIENT", "ENCOUNTER"] "CODE" "DESCRIPTION"
        [x, y]).getD 1 none == some e) = ([x, y] == [p, e])
    have h0 : (aggRow df ["PATIENT", "ENCOUNTER"] "CODE" "DESCRIPTION"
        [x, y]).getD 0 none = some x := rfl
    have h1 : (aggRow df ["PATIENT", "ENCOUNTER"] "CODE" "DESCRIPTION"
        [x, y]).getD 1 none = some y := rfl
    rw [h0, h1]
    apply bool_eq_of_iff
    constructor
    · intro hb
      simp only [Bool.and_eq_true, beq_iff_eq, Option.some.injEq] at hb
      simp [hb.1, hb.2]
    · intro hb
      simp only [beq_iff_eq, List.cons.injEq, and_true] at hb
      simp [hb.1, hb.2]
  rw [List.filter_congr hpred,
    filter_eq_singleton_of_nodup _ _ (aggKeys_nodup df _) hmem]
  simp only [List.map_cons, List.map_nil]
  have hfilt : df.rows.filter (fun r =>
      ["PATIENT", "ENCOUNTER"].map (getCell df.cols r) == [p, e].map some) =
      df.rows.filter (fun r =>
        getCell df.cols r "PATIENT" == some p &&
        getCell df.cols r "ENCOUNTER" == some e) := by
    refine List.filter_congr ?_
    intro r _
    apply bool_eq_of_iff
    constructor
    · intro hb
      simp only [List.map_cons, List.map_nil, beq_iff_eq,
        List.cons.injEq, and_true] at hb
      simp [hb.1, hb.2]
    · intro hb
      simp only [Bool.and_eq_true, beq_iff_eq] at hb
      simp [List.map_cons, List.map_nil, hb.1, hb.2]
  show aggRow df ["PATIENT", "ENCOUNTER"] "CODE" "DESCRIPTION" [p, e] :: [] = _
  unfold aggRow
  rw [hfilt]
  rfl

/-- Witness for C3 at the spec's example: codes `123|456|789`, the blank
(null) middle description dropped, descriptions `Flu|Cold`. -/
theorem claim_C3_aggregation_witness :
    (∃ r ∈ (⟨["PATIENT", "ENCOUNTER", "CODE", "DESCRIPTION"],
      [[some "P1", some "E1", some "123", some "Flu"],
       [some "P1", some "E1", some "456", none],
       [some "P1", some "E1", some "789", some "Cold"]]⟩ : DataFrame).rows,
      getCell ["PATIENT", "ENCOUNTER", "CODE", "DESCRIPTION"] r "PATIENT" =
        some "P1" ∧
      getCell ["PATIENT", "ENCOUNTER", "CODE", "DESCRIPTION"] r "ENCOUNTER" =
        some "E1") ∧
    (aggregate_clinical_data
      ⟨["PATIENT", "ENCOUNTER", "CODE", "DESCRIPTION"],
       [[some "P1", some "E1", some "123", some "Flu"],
        [some "P1", some "E1", some "456", none],
        [some "P1", some "E1", some "789", some "Cold"]]⟩
      ["PATIENT", "ENCOUNTER"] "CODE" "DESCRIPTION").rows.filter
      (fun row => row.getD 0 none == some "P1" &&
        row.getD 1 none == some "E1") =
    [[some "P1", some "E1", some "123|456|789", some "Flu|Cold"]] :=
  ⟨by decide, by
    rw [claim_C3_aggregation
      ⟨["PATIENT", "ENCOUNTER", "CODE", "DESCRIPTION"],
       [[some "P1", some "E1", some "123", some "Flu"],
        [some "P1", some "E1", some "456", none],
        [some "P1", some "E1", some "789", some "Cold"]]⟩
      "P1" "E1" (by decide)]
    decide⟩
